import Mathlib

/-!
Verification of the watsonx.data MCP server's REST client and ingestion
tool handlers, as implemented in `src/lakehouse_mcp/client/watsonx.py` and
`src/lakehouse_mcp/tools/`.

The embedding is shallow: Python dictionaries parsed from JSON are modelled
by the inductive `Json`; an HTTP response is modelled by its status code and
the JSON-parse result of its body; each raised Python exception kind is a
constructor of `Outcome`.  Python string operations used by the code
(`startswith`, `split`, `join`, `str()` / `repr()` of parsed-JSON values)
are modelled by executable functions with Python semantics.
-/

/-- A JSON value, as produced by `response.json()` in the Python client.
Numbers are modelled as integers (no claim involves fractional values). -/
inductive Json where
  | null : Json
  | bool (b : Bool) : Json
  | num (n : Int) : Json
  | str (s : String) : Json
  | arr (elems : List Json) : Json
  | obj (fields : List (String × Json)) : Json

/-- Python `d.get(k)` on a dict (first binding wins; parsed-JSON dicts have
distinct keys). Returns `none` when the key is absent. -/
def dictGet (fields : List (String × Json)) (k : String) : Option Json :=
  match fields with
  | [] => none
  | (k2, v) :: rest => if k2 = k then some v else dictGet rest k

/-- Python truthiness of a parsed-JSON value (used by `response or {}` in
`create_schema`). -/
def pyTruthy : Json → Bool
  | .null => false
  | .bool b => b
  | .num n => n != 0
  | .str s => s != ""
  | .arr elems => !elems.isEmpty
  | .obj fields => !fields.isEmpty

/-- Escape a quote character and backslashes, as CPython `repr` does inside
a quoted string. -/
def pyEscape (q : Char) : List Char → List Char
  | [] => []
  | c :: cs =>
    if c = q || c = '\\' then '\\' :: c :: pyEscape q cs
    else c :: pyEscape q cs

/-- CPython `repr` of a `str`: single-quoted, unless the string contains a
single quote and no double quote, in which case double-quoted.  Escaping of
control characters is not modelled (no claim depends on it). -/
def pyReprString (s : String) : String :=
  let sq : Char := Char.ofNat 39
  let dq : Char := Char.ofNat 34
  if s.toList.contains sq && !(s.toList.contains dq) then
    String.singleton dq ++ String.mk (pyEscape dq s.toList) ++ String.singleton dq
  else
    String.singleton sq ++ String.mk (pyEscape sq s.toList) ++ String.singleton sq

/-- Python `sep.join(parts)`. -/
def pyJoin (sep : String) : List String → String
  | [] => ""
  | [x] => x
  | x :: xs => x ++ sep ++ pyJoin sep xs

mutual
/-- CPython `repr` of a value obtained by parsing JSON: `None`, `True`,
`False`, decimal integers, quoted strings, `[...]` lists and
`{'k': v, ...}` dicts. `str()` of a dict (as in `str(error_data)` and
f-string interpolation of a dict) coincides with `repr`. -/
def pyRepr : Json → String
  | .null => "None"
  | .bool true => "True"
  | .bool false => "False"
  | .num n => toString n
  | .str s => pyReprString s
  | .arr elems => "[" ++ pyJoin ", " (pyReprList elems) ++ "]"
  | .obj fields => "\x7b" ++ pyJoin ", " (pyReprFields fields) ++ "\x7d"

/-- `repr` of each element of a JSON array. -/
def pyReprList : List Json → List String
  | [] => []
  | x :: xs => pyRepr x :: pyReprList xs

/-- `repr` of each `'key': value` entry of a JSON object. -/
def pyReprFields : List (String × Json) → List String
  | [] => []
  | (k, v) :: rest => (pyReprString k ++ ": " ++ pyRepr v) :: pyReprFields rest
end

/-- Python `str()` of a parsed-JSON value: the string itself for a `str`
(no quotes), `repr` for everything else.  This is what f-string
interpolation (`f"API Error: {error_msg}"`) applies to the extracted
error message. -/
def pyStr : Json → String
  | .str s => s
  | v => pyRepr v

/-- Python `s.startswith(pre)`. -/
def pyStartswith (s pre : String) : Bool :=
  List.isPrefixOf pre.toList s.toList

/-- Helper for `pySplit`: accumulates the current (reversed) segment. -/
def pySplitAux (sep : Char) : List Char → List Char → List String
  | [], acc => [String.mk acc.reverse]
  | c :: cs, acc =>
    if c = sep then String.mk acc.reverse :: pySplitAux sep cs []
    else pySplitAux sep cs (c :: acc)

/-- Python `s.split(sep)` for a one-character separator: every occurrence
of the separator ends a segment; `"".split(sep) == [""]`. -/
def pySplit (sep : Char) (s : String) : List String :=
  pySplitAux sep s.toList []

/-- The configuration value (`WatsonXConfig`) the client is constructed
with: base URL, API key, tenant instance id, TLS flag and timeout. -/
structure WatsonXConfig where
  base_url : String
  api_key : String
  instance_id : String
  tls_insecure_skip_verify : Bool
  timeout_seconds : Nat

/-- The default headers installed on the shared `httpx.AsyncClient` in
`WatsonXClient.__init__`. -/
def clientHeaders (config : WatsonXConfig) : List (String × String) :=
  [("Content-Type", "application/json"),
   ("Accept", "application/json"),
   ("AuthInstanceId", config.instance_id)]

/-- `WatsonXClient._get_auth_header`: the per-request header dict built
from the token the IAM token manager returned for this call. -/
def authHeader (token : String) : List (String × String) :=
  [("Authorization", "Bearer " ++ token)]

/-- httpx merges the client-level default headers with the per-request
headers, per-request entries overriding same-named defaults. -/
def mergeHeaders (base extra : List (String × String)) : List (String × String) :=
  base.filter (fun kv => !(extra.any (fun kv2 => kv2.1 == kv.1))) ++ extra

/-- The full header set carried by one request: client defaults merged
with the per-call Authorization header. -/
def requestHeaders (config : WatsonXConfig) (token : String) : List (String × String) :=
  mergeHeaders (clientHeaders config) (authHeader token)

/-- An HTTP response as the client observes it: status code plus the
JSON-parse result of the body (`none` when `response.json()` would raise
`ValueError`, i.e. the body is not parseable JSON). -/
structure Response where
  status : Nat
  body : Option Json

/-- The observable outcome of one verb operation: the returned dict, or
the Python exception kind that escapes the method. -/
inductive Outcome where
  | ok (data : Json) : Outcome
  | runtimeError (msg : String) : Outcome
  | httpStatusError (status : Nat) : Outcome
  | attributeError : Outcome
  | jsonDecodeError : Outcome

/-- `true` iff the outcome is a raised exception rather than a returned
value. -/
def Outcome.isError : Outcome → Bool
  | .ok _ => false
  | _ => true

/-- The message of the raised `RuntimeError`, when one was raised. -/
def raisedMessage : Outcome → Option String
  | .runtimeError msg => some msg
  | _ => none

/-- `error_data.get("message", error_data.get("exception", str(error_data)))`
followed by the f-string interpolation `f"{error_msg}"`: ordered fallback
over the parsed error object, stringified Python-style. -/
def extractedErrorMsg (fields : List (String × Json)) : String :=
  match dictGet fields "message" with
  | some v => pyStr v
  | none =>
    match dictGet fields "exception" with
    | some v => pyStr v
    | none => pyRepr (Json.obj fields)

/-- The message of the `RuntimeError` raised for a JSON-object error body:
`f"API Error: {error_msg}\nFull response: {error_data}"`. -/
def apiErrorMessage (fields : List (String × Json)) : String :=
  "API Error: " ++ extractedErrorMsg fields ++ "\nFull response: " ++ pyRepr (Json.obj fields)

/-- The `if response.status_code >= 400:` block shared verbatim by all four
verb methods: parse the body; on a JSON object raise `RuntimeError` with the
extracted message (the `raise` inside the `try` is not caught — only
`ValueError`/`KeyError` are); on a JSON non-object `.get` raises
`AttributeError` (uncaught); on an unparseable body the `ValueError` from
`response.json()` is caught and `response.raise_for_status()` raises
`httpx.HTTPStatusError` carrying the status. -/
def classifyError (resp : Response) : Outcome :=
  match resp.body with
  | some (Json.obj fields) => .runtimeError (apiErrorMessage fields)
  | some _ => .attributeError
  | none => .httpStatusError resp.status

/-- `data = response.json()` on the success path: the parsed body, or the
uncaught `ValueError` when the body is not JSON. -/
def parseBody (resp : Response) : Outcome :=
  match resp.body with
  | some data => .ok data
  | none => .jsonDecodeError

namespace WatsonXClient

/-- `WatsonXClient.get`: response classification of the GET verb. -/
def get (resp : Response) : Outcome :=
  if 400 ≤ resp.status then classifyError resp else parseBody resp

/-- `WatsonXClient.post`: response classification of the POST verb. -/
def post (resp : Response) : Outcome :=
  if 400 ≤ resp.status then classifyError resp else parseBody resp

/-- `WatsonXClient.patch`: response classification of the PATCH verb. -/
def patch (resp : Response) : Outcome :=
  if 400 ≤ resp.status then classifyError resp else parseBody resp

/-- `WatsonXClient.delete`: like the other verbs, except that a 204
No-Content response returns `{}` without parsing the body. -/
def delete (resp : Response) : Outcome :=
  if 400 ≤ resp.status then classifyError resp
  else if resp.status = 204 then .ok (Json.obj [])
  else parseBody resp

end WatsonXClient

/-- The four verbs of the client. -/
inductive Verb where
  | get : Verb
  | post : Verb
  | patch : Verb
  | delete : Verb
deriving DecidableEq

/-- The uniform `execute(verb, ...)` operation of the spec: dispatch to the
verb method's response classification. -/
def execute : Verb → Response → Outcome
  | .get, resp => WatsonXClient.get resp
  | .post, resp => WatsonXClient.post resp
  | .patch, resp => WatsonXClient.patch resp
  | .delete, resp => WatsonXClient.delete resp

/-- URL resolution, identical in all four verb methods:
`url = path if path.startswith("http") else f"{self.config.base_url}{path}"`. -/
def buildUrl (base_url path : String) : String :=
  if pyStartswith path "http" then path else base_url ++ path

/-- One dispatched HTTP request: verb and fully resolved URL. -/
structure Request where
  verb : Verb
  url : String

/-- One full verb call seen as a trace: the list of HTTP requests the
method dispatches to the transport, paired with the outcome.  The method
body is straight-line — build URL, one `self.client.<verb>(url, ...)`
call, classify — so the trace is built accordingly. -/
def executeTrace (verb : Verb) (base_url path : String)
    (transport : Request → Response) : List Request × Outcome :=
  let url := buildUrl base_url path
  let resp := transport ⟨verb, url⟩
  ([⟨verb, url⟩], execute verb resp)

/-- JSON helper: look up a field of an object value (used to inspect the
bodies the tool handlers build). -/
def Json.getField : Json → String → Option Json
  | .obj fields, k => dictGet fields k
  | _, _ => none

/-- `list_ingestion_jobs` path construction: start from the fixed jobs
path, append `start=` and `limit=` entries exactly when the corresponding
argument is not `None`, and join them after `?` with `&`. -/
def listIngestionJobsPath (start limit : Option Int) : String :=
  let path := "/v3/lhingestion/api/v1/ingestion/jobs"
  let query_params :=
    (match start with
     | some s => ["start=" ++ toString s]
     | none => []) ++
    (match limit with
     | some l => ["limit=" ++ toString l]
     | none => [])
  match query_params with
  | [] => path
  | _ => path ++ "?" ++ pyJoin "&" query_params

/-- The `list_ingestion_jobs` tool handler: one GET on the built path; the
response is returned unmodified (the handler only reads
`response.get("ingestion_jobs", [])` for logging); errors propagate. -/
def list_ingestion_jobs (client_get : String → Outcome)
    (start limit : Option Int) : Outcome :=
  match client_get (listIngestionJobsPath start limit) with
  | .ok response => .ok response
  | e => e

/-- The `get_ingestion_job` tool handler: one GET on the per-job path;
response returned unmodified; errors propagate. -/
def get_ingestion_job (client_get : String → Outcome) (job_id : String) : Outcome :=
  match client_get ("/v3/lhingestion/api/v1/ingestion/jobs/" ++ job_id) with
  | .ok response => .ok response
  | e => e

/-- The bucket-name defaulting at the top of `create_ingestion_job`:
`if bucket_name is None and file_paths.startswith("s3://"):
bucket_name = file_paths.split("/")[2]`.  The indexing is modelled
with `[2]?`; under the guard the split always has at least three
segments (proved below), so the optional access is always `some`. -/
def resolveBucketName (bucket_name : Option String) (file_paths : String) : Option String :=
  match bucket_name with
  | some b => some b
  | none =>
    if pyStartswith file_paths "s3://" then (pySplit '/' file_paths)[2]?
    else none

/-- Encode the Python value held in `bucket_name` (`None` or a string). -/
def optStrJson : Option String → Json
  | none => .null
  | some s => .str s

/-- The v3 request body built by `create_ingestion_job`: nested
`target`/`source`/`execute_config` dicts, with `file_format_properties`
added to `source` for CSV files and `engine_id` added at top level when
provided. -/
def createIngestionJobBody (job_id catalog schema table file_paths file_type : String)
    (bucket_name : Option String) (bucket_type write_mode : String)
    (engine_id : Option String)
    (field_delimiter line_delimiter escape_character : String)
    (header : Bool) (encoding : String)
    (driver_memory : String) (driver_cores : Int)
    (executor_memory : String) (executor_cores num_executors : Int) : Json :=
  let bucket_name := resolveBucketName bucket_name file_paths
  let sourceFields :=
    [("file_paths", Json.str file_paths),
     ("file_type", Json.str file_type),
     ("bucket_details", Json.obj
        [("bucket_name", optStrJson bucket_name),
         ("bucket_type", Json.str bucket_type)])] ++
    (if file_type = "csv" then
       [("file_format_properties", Json.obj
          [("field_delimiter", Json.str field_delimiter),
           ("line_delimiter", Json.str line_delimiter),
           ("escape_character", Json.str escape_character),
           ("header", Json.bool header),
           ("encoding", Json.str encoding)])]
     else [])
  Json.obj
    ([("job_id", Json.str job_id),
      ("target", Json.obj
         [("catalog", Json.str catalog),
          ("schema", Json.str schema),
          ("table", Json.str table),
          ("write_mode", Json.str write_mode)]),
      ("source", Json.obj sourceFields),
      ("execute_config", Json.obj
         [("driver_memory", Json.str driver_memory),
          ("driver_cores", Json.num driver_cores),
          ("executor_memory", Json.str executor_memory),
          ("executor_cores", Json.num executor_cores),
          ("num_executors", Json.num num_executors)])] ++
     (match engine_id with
      | some e => [("engine_id", Json.str e)]
      | none => []))

/-- The `create_ingestion_job` tool handler: build the body, POST it to
the jobs path, return the response; on any exception, log and bare
`raise` (same exception). -/
def create_ingestion_job (client_post : String → Json → Outcome)
    (job_id catalog schema table file_paths file_type : String)
    (bucket_name : Option String) (bucket_type write_mode : String)
    (engine_id : Option String)
    (field_delimiter line_delimiter escape_character : String)
    (header : Bool) (encoding : String)
    (driver_memory : String) (driver_cores : Int)
    (executor_memory : String) (executor_cores num_executors : Int) : Outcome :=
  match client_post "/v3/lhingestion/api/v1/ingestion/jobs"
      (createIngestionJobBody job_id catalog schema table file_paths file_type
        bucket_name bucket_type write_mode engine_id
        field_delimiter line_delimiter escape_character header encoding
        driver_memory driver_cores executor_memory executor_cores num_executors) with
  | .ok response => .ok response
  | e => e

/-- The `delete_ingestion_job` tool handler: one DELETE on the per-job
path, response returned; on any exception, log and bare `raise`. -/
def delete_ingestion_job (client_delete : String → Outcome) (job_id : String) : Outcome :=
  match client_delete ("/v3/ingestion_jobs/" ++ job_id) with
  | .ok response => .ok response
  | e => e

/-- The request body built by `create_schema` (`name`, `custom_path`,
optional `storage_name`). -/
def createSchemaBody (schema_name custom_path storage_name : String) : Json :=
  Json.obj
    ([("name", Json.str schema_name),
      ("custom_path", Json.str (if custom_path != "" then custom_path else ""))] ++
     (if storage_name != "" then [("storage_name", Json.str storage_name)] else []))

/-- The `create_schema` tool handler: POST the body to the per-catalog
schemas path and return `response or {}`; on any exception, log and bare
`raise`. -/
def create_schema (client_post : String → Json → Outcome)
    (catalog_id schema_name engine_id custom_path storage_name : String) : Outcome :=
  match client_post ("/v3/catalogs/" ++ catalog_id ++ "/schemas?engine_id=" ++ engine_id)
      (createSchemaBody schema_name custom_path storage_name) with
  | .ok response => .ok (if pyTruthy response then response else Json.obj [])
  | e => e

/-- Modelled from the spec's words (claim C4 refinement target, not from
the source): a path "already starts with a URL scheme" when it begins with
an RFC 3986 scheme — a letter followed by letters, digits, `+`, `-` or
`.`, terminated by a colon. -/
def startsWithUrlScheme (path : String) : Bool :=
  match path.toList with
  | [] => false
  | c :: cs => c.isAlpha && schemeTail cs
where
  /-- Consume the rest of the scheme up to the terminating colon. -/
  schemeTail : List Char → Bool
  | [] => false
  | c :: cs =>
    if c = ':' then true
    else (c.isAlpha || c.isDigit || c = '+' || c = '-' || c = '.') && schemeTail cs

/-! ## Shared lemmas -/

/-- Splitting never yields an empty list: there is always a final
(possibly empty) segment. -/
theorem pySplitAux_ne_nil (sep : Char) : ∀ (cs acc : List Char), pySplitAux sep cs acc ≠ []
  | [], acc => by simp [pySplitAux]
  | c :: cs, acc => by
    unfold pySplitAux
    split
    · simp
    · exact pySplitAux_ne_nil sep cs (c :: acc)

/-- Splitting a character list that starts with `s3://` on `/` yields
`"s3:"`, the empty segment between the two slashes, then the split of the
remainder. -/
theorem pySplitAux_s3 (t : List Char) :
    pySplitAux '/' ('s' :: '3' :: ':' :: '/' :: '/' :: t) [] =
      "s3:" :: "" :: pySplitAux '/' t [] := rfl

/-! ## Claims -/

/-- C1: for every verb operation whose response has status < 400 and a
body that parses as JSON, the operation returns exactly the parsed body —
except DELETE with status 204, which returns the empty mapping. -/
theorem execute_success_returns_parsed_body (v : Verb) (resp : Response) (j : Json)
    (hstatus : resp.status < 400) (hbody : resp.body = some j) :
    execute v resp =
      Outcome.ok (if v = Verb.delete ∧ resp.status = 204 then Json.obj [] else j) := by
  cases v <;>
    simp [execute, WatsonXClient.get, WatsonXClient.post, WatsonXClient.patch,
      WatsonXClient.delete, parseBody, hbody, Nat.not_le.mpr hstatus]
  split <;> simp_all [parseBody]

/-- Witness for C1: a DELETE returning 204 yields the empty mapping even
though the body parsed to a different value. -/
theorem execute_success_witness :
    execute Verb.delete ⟨204, some (Json.str "ignored")⟩ = Outcome.ok (Json.obj []) := by
  have h := execute_success_returns_parsed_body Verb.delete ⟨204, some (Json.str "ignored")⟩
    (Json.str "ignored") (by decide) rfl
  simpa using h

/-- C2 counterexample: for a 400 response with body `{"message": "boom"}`
the raised error's message is NOT the `message` field's value (it is the
formatted `API Error: ...` string, and no structured error carrying the
status code is raised). -/
theorem raised_error_message_not_field_value :
    raisedMessage (execute Verb.post ⟨400, some (Json.obj [("message", Json.str "boom")])⟩) ≠
      some "boom" := by decide

/-- C2 (amended): for every verb call whose response has status ≥ 400 and
a body parsing to a JSON object, the client raises a plain `RuntimeError`
whose message is `API Error: <msg>` + newline + `Full response: <body>`,
where `<msg>` is extracted by ordered fallback (`message` field, else
`exception` field, else the stringified whole body); the status code is
not carried.  A body parsing to a non-object JSON value instead escapes
with `AttributeError` from the `.get` probe. -/
theorem error_object_body_raises_fallback_message (v : Verb) (resp : Response)
    (h400 : 400 ≤ resp.status) :
    (∀ fields, resp.body = some (Json.obj fields) →
      execute v resp = Outcome.runtimeError
        ("API Error: " ++ extractedErrorMsg fields ++ "\nFull response: " ++
          pyRepr (Json.obj fields)) ∧
      ((∃ mv, dictGet fields "message" = some mv ∧ extractedErrorMsg fields = pyStr mv) ∨
       (dictGet fields "message" = none ∧
         ∃ ev, dictGet fields "exception" = some ev ∧ extractedErrorMsg fields = pyStr ev) ∨
       (dictGet fields "message" = none ∧ dictGet fields "exception" = none ∧
         extractedErrorMsg fields = pyRepr (Json.obj fields)))) ∧
    (∀ j, resp.body = some j → (∀ fields, j ≠ Json.obj fields) →
      execute v resp = Outcome.attributeError) := by
  constructor
  · intro fields hbody
    constructor
    · cases v <;>
        simp [execute, WatsonXClient.get, WatsonXClient.post, WatsonXClient.patch,
          WatsonXClient.delete, classifyError, apiErrorMessage, hbody, h400]
    · unfold extractedErrorMsg
      cases hm : dictGet fields "message" with
      | some mv => exact Or.inl ⟨mv, rfl, rfl⟩
      | none =>
        cases he : dictGet fields "exception" with
        | some ev => exact Or.inr (Or.inl ⟨rfl, ev, rfl, rfl⟩)
        | none => exact Or.inr (Or.inr ⟨rfl, rfl, rfl⟩)
  · intro j hbody hobj
    cases v <;> cases j <;>
      simp_all [execute, WatsonXClient.get, WatsonXClient.post, WatsonXClient.patch,
        WatsonXClient.delete, classifyError, h400]

/-- Witness for C2 (amended): a 404 whose body has only an `exception`
field raises the formatted RuntimeError built from that field. -/
theorem error_object_body_witness :
    execute Verb.get ⟨404, some (Json.obj [("exception", Json.str "NotFound")])⟩ =
      Outcome.runtimeError ("API Error: " ++ extractedErrorMsg [("exception", Json.str "NotFound")] ++
        "\nFull response: " ++ pyRepr (Json.obj [("exception", Json.str "NotFound")])) :=
  ((error_object_body_raises_fallback_message Verb.get
    ⟨404, some (Json.obj [("exception", Json.str "NotFound")])⟩ (by decide)).1
    [("exception", Json.str "NotFound")] rfl).1

/-- C3: for every verb call whose response has status ≥ 400 and a body
that does not parse as JSON, the client raises the httpx status error
(the spec's TransportError) carrying the status code, and that error kind
is distinct from the RuntimeError raised for parseable JSON error
bodies. -/
theorem nonjson_error_body_raises_status_error (v : Verb) (resp : Response)
    (h400 : 400 ≤ resp.status) (hbody : resp.body = none) :
    execute v resp = Outcome.httpStatusError resp.status ∧
    ∀ (s : Nat) (m : String), Outcome.httpStatusError s ≠ Outcome.runtimeError m := by
  constructor
  · cases v <;>
      simp [execute, WatsonXClient.get, WatsonXClient.post, WatsonXClient.patch,
        WatsonXClient.delete, classifyError, hbody, h400]
  · intro s m h
    exact Outcome.noConfusion h

/-- Witness for C3: a 503 with an unparseable body surfaces as the status
error carrying 503. -/
theorem nonjson_error_body_witness :
    execute Verb.delete ⟨503, none⟩ = Outcome.httpStatusError 503 :=
  (nonjson_error_body_raises_status_error Verb.delete ⟨503, none⟩ (by decide) rfl).1

/-- C4 counterexample: `ftp://files.example.com/data.csv` starts with a
URL scheme, yet the client prepends the base URL to it — the code tests
the literal prefix `http`, not "starts with a URL scheme". -/
theorem ftp_scheme_path_gets_base_prepended :
    startsWithUrlScheme "ftp://files.example.com/data.csv" = true ∧
    buildUrl "https://api.example.com" "ftp://files.example.com/data.csv" ≠
      "ftp://files.example.com/data.csv" := by decide

/-- C4 (amended): a path is used verbatim exactly when it starts with the
literal string `http`; every other path — even one with a different URL
scheme — gets the base URL prepended by plain concatenation, with no
normalization or percent-encoding correction. -/
theorem buildUrl_checks_literal_http (base_url path : String) :
    (pyStartswith path "http" = true → buildUrl base_url path = path) ∧
    (pyStartswith path "http" = false → buildUrl base_url path = base_url ++ path) := by
  constructor <;> intro h <;> simp [buildUrl, h]

/-- Witness for C4 (amended): a relative path is appended to the base
URL. -/
theorem buildUrl_checks_literal_http_witness :
    buildUrl "https://api.example.com" "/v3/jobs" = "https://api.example.com" ++ "/v3/jobs" :=
  (buildUrl_checks_literal_http "https://api.example.com" "/v3/jobs").2 (by decide)

/-- C6: when the client raises, each tool handler (`create_ingestion_job`,
`delete_ingestion_job`, `create_schema`) re-raises that same exception
unchanged: no translation, recovery or retry. -/
theorem tool_handlers_reraise_client_error (e : Outcome) (he : e.isError = true)
    (job_id catalog schema table file_paths file_type bucket_type write_mode : String)
    (bucket_name engine_id : Option String)
    (field_delimiter line_delimiter escape_character encoding driver_memory executor_memory : String)
    (header : Bool) (driver_cores executor_cores num_executors : Int)
    (catalog_id schema_name eng custom_path storage_name : String) :
    create_ingestion_job (fun _ _ => e) job_id catalog schema table file_paths file_type
      bucket_name bucket_type write_mode engine_id field_delimiter line_delimiter
      escape_character header encoding driver_memory driver_cores executor_memory
      executor_cores num_executors = e ∧
    delete_ingestion_job (fun _ => e) job_id = e ∧
    create_schema (fun _ _ => e) catalog_id schema_name eng custom_path storage_name = e := by
  cases e <;>
    simp_all [create_ingestion_job, delete_ingestion_job, create_schema, Outcome.isError]

/-- Witness for C6: a RuntimeError from the client escapes
`delete_ingestion_job` unchanged. -/
theorem tool_handlers_reraise_witness :
    delete_ingestion_job (fun _ => Outcome.runtimeError "API Error: boom") "job-123" =
      Outcome.runtimeError "API Error: boom" :=
  (tool_handlers_reraise_client_error (Outcome.runtimeError "API Error: boom") rfl
    "job-123" "c" "s" "t" "fp" "csv" "ibm_cos" "append" none none
    "," "\n" "\\" "UTF-8" "2G" "2G" true 1 1 1 "cat" "sch" "eng" "" "").2.1

/-- C7: every request carries `Content-Type: application/json`,
`Accept: application/json`, the tenant instance-id header, and
`Authorization: Bearer <token>` for the token obtained for that call. -/
theorem request_carries_required_headers (config : WatsonXConfig) (token : String) :
    ("Content-Type", "application/json") ∈ requestHeaders config token ∧
    ("Accept", "application/json") ∈ requestHeaders config token ∧
    ("AuthInstanceId", config.instance_id) ∈ requestHeaders config token ∧
    ("Authorization", "Bearer " ++ token) ∈ requestHeaders config token := by
  have h : requestHeaders config token =
      [("Content-Type", "application/json"), ("Accept", "application/json"),
       ("AuthInstanceId", config.instance_id), ("Authorization", "Bearer " ++ token)] := rfl
  simp [h]

/-- C8: `list_ingestion_jobs` targets the jobs path with `start=` and/or
`limit=` appended exactly when provided (no query string when neither is),
and returns the client's response unmodified. -/
theorem list_ingestion_jobs_path_and_passthrough :
    listIngestionJobsPath none none = "/v3/lhingestion/api/v1/ingestion/jobs" ∧
    (∀ s : Int, listIngestionJobsPath (some s) none =
      "/v3/lhingestion/api/v1/ingestion/jobs?start=" ++ toString s) ∧
    (∀ l : Int, listIngestionJobsPath none (some l) =
      "/v3/lhingestion/api/v1/ingestion/jobs?limit=" ++ toString l) ∧
    (∀ s l : Int, listIngestionJobsPath (some s) (some l) =
      "/v3/lhingestion/api/v1/ingestion/jobs?start=" ++ toString s ++ "&limit=" ++ toString l) ∧
    (∀ (client_get : String → Outcome) (start limit : Option Int),
      list_ingestion_jobs client_get start limit =
        client_get (listIngestionJobsPath start limit)) := by
  refine ⟨rfl, fun s => rfl, fun l => rfl, fun s l => ?_, fun f start limit => ?_⟩
  · simp only [listIngestionJobsPath, pyJoin, String.append_assoc]
    rfl
  · cases hc : f (listIngestionJobsPath start limit) <;> simp [list_ingestion_jobs, hc]

/-- C9: one verb call dispatches exactly one HTTP request — to the
resolved URL — regardless of the transport's response and of the outcome;
no retry happens at this layer. -/
theorem verb_call_dispatches_exactly_one_request (verb : Verb) (base_url path : String)
    (transport : Request → Response) :
    (executeTrace verb base_url path transport).1 = [⟨verb, buildUrl base_url path⟩] ∧
    (executeTrace verb base_url path transport).1.length = 1 :=
  ⟨rfl, rfl⟩

/-- C10: the body built by `create_ingestion_job` carries, at
`source.bucket_details.bucket_name`, the resolved bucket name: when
`bucket_name` is `None` and `file_paths` starts with `s3://` it is the
third `/`-separated segment of `file_paths` (the bucket host part), and in
every other case the supplied `bucket_name` unchanged (including `None`). -/
theorem create_ingestion_job_bucket_name_resolution
    (job_id catalog schema table file_paths file_type : String)
    (bucket_name : Option String) (bucket_type write_mode : String)
    (engine_id : Option String)
    (field_delimiter line_delimiter escape_character : String)
    (header : Bool) (encoding : String)
    (driver_memory : String) (driver_cores : Int)
    (executor_memory : String) (executor_cores num_executors : Int) :
    (((createIngestionJobBody job_id catalog schema table file_paths file_type
        bucket_name bucket_type write_mode engine_id
        field_delimiter line_delimiter escape_character header encoding
        driver_memory driver_cores executor_memory executor_cores num_executors).getField
          "source").bind (fun src => src.getField "bucket_details")).bind
        (fun bd => bd.getField "bucket_name") =
      some (optStrJson (resolveBucketName bucket_name file_paths)) ∧
    (bucket_name = none → pyStartswith file_paths "s3://" = true →
      ∃ seg, (pySplit '/' file_paths)[2]? = some seg ∧
        resolveBucketName bucket_name file_paths = some seg) ∧
    (∀ b, bucket_name = some b → resolveBucketName bucket_name file_paths = some b) ∧
    (bucket_name = none → pyStartswith file_paths "s3://" = false →
      resolveBucketName bucket_name file_paths = none) := by
  refine ⟨rfl, ?_, ?_, ?_⟩
  · intro hb hs3
    subst hb
    have hpre : ("s3://".toList).isPrefixOf file_paths.toList = true := hs3
    rw [List.isPrefixOf_iff_prefix] at hpre
    obtain ⟨t, ht⟩ := hpre
    have htl : file_paths.toList = 's' :: '3' :: ':' :: '/' :: '/' :: t := by
      rw [← ht]; rfl
    have hsplit : pySplit '/' file_paths = "s3:" :: "" :: pySplitAux '/' t [] := by
      unfold pySplit
      rw [htl]
      exact pySplitAux_s3 t
    obtain ⟨seg, rest, hrest⟩ := List.exists_cons_of_ne_nil (pySplitAux_ne_nil '/' t [])
    refine ⟨seg, ?_, ?_⟩
    · rw [hsplit, hrest]; simp
    · unfold resolveBucketName
      simp only [hs3, if_true]
      rw [hsplit, hrest]; simp
  · intro b hb
    subst hb
    rfl
  · intro hb hs3
    subst hb
    simp [resolveBucketName, hs3]

/-- Witness for C10: for `file_paths = "s3://mybucket/data/input.csv"` and
no supplied bucket name, the resolved bucket name is `mybucket`. -/
theorem bucket_name_resolution_witness :
    resolveBucketName none "s3://mybucket/data/input.csv" = some "mybucket" := by
  obtain ⟨seg, h1, h2⟩ := (create_ingestion_job_bucket_name_resolution
    "j" "c" "s" "t" "s3://mybucket/data/input.csv" "csv" none "ibm_cos" "append" none
    "," "\n" "\\" true "UTF-8" "2G" 1 "2G" 1 1).2.1 rfl (by decide)
  have h3 : (pySplit '/' "s3://mybucket/data/input.csv")[2]? = some "mybucket" := by decide
  rw [h1] at h3
  rw [Option.some_inj.mp h3] at h2
  exact h2
